import Mathlib

/-!
Verification development for the lolrofl ROFL replay parser.

Shallow embedding conventions:
- Rust byte slices and `Vec<u8>` become `List Nat` (each element a byte value).
- Machine integers (`u8`/`u16`/`u32`/`usize`) become `Nat`; the decoded fields are
  read little-endian from at most 8 bytes so no wrap-around arithmetic occurs in
  the modelled paths.
- Fallible Rust functions returning `Result<_, Errors>` become `Except Errors _`
  or, when the function can also abort the process, `RRes _` whose `panic`
  constructor models a Rust panic (failed `assert!`, out-of-range slice index,
  or integer underflow).
- The external `blowfish` crate's per-block decryption is abstracted as a
  parameter `db : List Nat → List Nat` applied to each 8-byte block; the crate
  always writes exactly 8 bytes per block, which theorems carry as a length
  hypothesis.  The external `flate2` gzip decoder is abstracted as a parameter
  `gz : List Nat → Option (List Nat)`, `none` modelling a decoding failure and
  `some out` a successful full inflation; Rust's `read_to_end` appends `out` to
  the destination vector.
-/

set_option maxRecDepth 16384

/-- Decidable equality for `Except`, used to evaluate concrete decoder
outcomes in witnesses and counterexamples. -/
instance {ε α : Type} [DecidableEq ε] [DecidableEq α] : DecidableEq (Except ε α) := fun x y =>
  match x, y with
  | .error a, .error b =>
    if h : a = b then .isTrue (by rw [h]) else .isFalse (by simp [h])
  | .ok a, .ok b =>
    if h : a = b then .isTrue (by rw [h]) else .isFalse (by simp [h])
  | .error _, .ok _ => .isFalse (by simp)
  | .ok _, .error _ => .isFalse (by simp)

namespace LolRofl

/-- Error enumeration of src/src/error.rs (`Errors`). -/
inductive Errors
  | NoData
  | BufferTooSmall
  | InvalidBuffer
deriving DecidableEq, Repr

/-- Outcome of running a Rust function that may return a `Result` or abort:
`ok` models `Ok`, `err` models `Err`, and `panic` models a Rust panic
(failed assertion, out-of-range slice index, or arithmetic underflow). -/
inductive RRes (α : Type)
  | ok (a : α)
  | err (e : Errors)
  | panic
deriving DecidableEq, Repr

/-- Sequencing of a fallible, panicking Rust step (the `?` operator /
early-return pattern): errors and panics short-circuit. -/
def RRes.bind {α β : Type} : RRes α → (α → RRes β) → RRes β
  | .ok a, f => f a
  | .err e, _ => .err e
  | .panic, _ => .panic

/-- LittleEndian::read_u16 over a byte list at offset `off`.  The Rust call
panics when fewer than two bytes follow `off`; every modelled call site
checks the bound first, so a total function with default 0 is faithful. -/
def readU16LE (data : List Nat) (off : Nat) : Nat :=
  data.getD off 0 + 256 * data.getD (off + 1) 0

/-- LittleEndian::read_u32 over a byte list at offset `off`; see `readU16LE`
for the bounds convention. -/
def readU32LE (data : List Nat) (off : Nat) : Nat :=
  data.getD off 0 + 256 * data.getD (off + 1) 0
    + 65536 * data.getD (off + 2) 0 + 16777216 * data.getD (off + 3) 0

/-- Rust range slicing `data[a..b]`: defined exactly when `a ≤ b ≤ data.length`,
otherwise the Rust expression panics (`none`). -/
def sliceRange (data : List Nat) (a b : Nat) : Option (List Nat) :=
  if a ≤ b ∧ b ≤ data.length then some ((data.drop a).take (b - a)) else none

/-- Block-decryption loop shared by the Blowfish helpers: the Rust loops walk
the buffer in 8-byte steps, replacing each block by its decryption.  `db`
abstracts the external blowfish crate's single-block decryption, which reads
and writes exactly 8 bytes.  When fewer than 8 bytes remain the Rust slice
`data[i..i+8]` panics; every modelled caller either checks `len % 8 = 0`
first or is modelled as panicking before this function's result is used,
so the catch-all branch is never reached with a non-empty list. -/
def applyBlocks (db : List Nat → List Nat) : List Nat → List Nat
  | b0 :: b1 :: b2 :: b3 :: b4 :: b5 :: b6 :: b7 :: rest =>
      db [b0, b1, b2, b3, b4, b5, b6, b7] ++ applyBlocks db rest
  | l => l

/-- Function `blowfish_decrypt` of src/src/model/payload.rs lines 13-34 (the
same code also appears in src/src/lib.rs lines 396-417): asserts the input
length is a non-zero multiple of 8, decrypts block-to-block into a fresh
buffer of the same length, and when `depad` holds reads the last decrypted
byte as the pad size, asserts it does not exceed the buffer length, and
truncates the buffer by that many bytes. -/
def blowfish_decrypt (db : List Nat → List Nat) (cipher : List Nat)
    (depad : Bool) : RRes (List Nat) :=
  if cipher.length % 8 ≠ 0 then .panic
  else if cipher.length = 0 then .panic
  else
    if depad then
      if (applyBlocks db cipher).length
          < (applyBlocks db cipher).getD ((applyBlocks db cipher).length - 1) 0 then .panic
      else .ok ((applyBlocks db cipher).take ((applyBlocks db cipher).length
        - (applyBlocks db cipher).getD ((applyBlocks db cipher).length - 1) 0))
    else .ok (applyBlocks db cipher)

/-- Function `blow_decrypt` of src/src/lib.rs lines 377-393: in-place variant
reusing an initialised cipher.  It has no alignment assertion — a length that
is not a multiple of 8 panics inside the loop on the slice `data[i..i+8]` —
and when `depad` holds it indexes the last byte (panicking on an empty
buffer), asserts the pad size fits, and truncates. -/
def blow_decrypt (db : List Nat → List Nat) (cipher : List Nat)
    (depad : Bool) : RRes (List Nat) :=
  if cipher.length % 8 ≠ 0 then .panic
  else
    if depad then
      if (applyBlocks db cipher).length = 0 then .panic
      else
        if (applyBlocks db cipher).length
            < (applyBlocks db cipher).getD ((applyBlocks db cipher).length - 1) 0 then .panic
        else .ok ((applyBlocks db cipher).take ((applyBlocks db cipher).length
          - (applyBlocks db cipher).getD ((applyBlocks db cipher).length - 1) 0))
    else .ok (applyBlocks db cipher)

/-- Function `decrypt_segment` of src/src/iter/payload.rs lines 98-119:
decrypts the buffer in place (panicking on a misaligned length inside the
loop), reads the last byte as the pad size (panicking on an empty buffer),
asserts the pad size fits, truncates, then gzip-inflates the depadded bytes
appending to `out`; a gzip failure returns `InvalidBuffer`. -/
def decrypt_segment (db : List Nat → List Nat) (gz : List Nat → Option (List Nat))
    (cipher out : List Nat) : RRes (List Nat) :=
  if cipher.length % 8 ≠ 0 then .panic
  else
    if (applyBlocks db cipher).length = 0 then .panic
    else
      if (applyBlocks db cipher).length
          < (applyBlocks db cipher).getD ((applyBlocks db cipher).length - 1) 0 then .panic
      else
        match gz ((applyBlocks db cipher).take ((applyBlocks db cipher).length
            - (applyBlocks db cipher).getD ((applyBlocks db cipher).length - 1) 0)) with
        | none => .err .InvalidBuffer
        | some g => .ok (out ++ g)

/-- Function `Rofl::rofl_decrypt_decompress` of src/src/lib.rs lines 158-173:
runs `blow_decrypt` with depad, then returns `BufferTooSmall` when the
(already depadded) buffer is shorter than the input, reads the byte at index
`data.len()-1` as the padding, returns `InvalidBuffer` when it exceeds 8,
and gzip-inflates `decrypted[..data.len()-padding]` appending to `out`. -/
def rofl_decrypt_decompress (db : List Nat → List Nat)
    (gz : List Nat → Option (List Nat)) (data out : List Nat) : RRes (List Nat) :=
  RRes.bind (blow_decrypt db data true) fun decrypted_data =>
    if decrypted_data.length < data.length then .err .BufferTooSmall
    else
      if 8 < decrypted_data.getD (data.length - 1) 0 then .err .InvalidBuffer
      else
        match gz (decrypted_data.take
            (data.length - decrypted_data.getD (data.length - 1) 0)) with
        | none => .err .InvalidBuffer
        | some g => .ok (out ++ g)

/-- Struct `BinHeader` of src/src/model/binheader.rs (identical copy in
src/src/lib.rs). -/
structure BinHeader where
  signature : List Nat
  header_length : Nat
  file_length : Nat
  metadata_offset : Nat
  metadata_length : Nat
  payload_header_offset : Nat
  payload_header_length : Nat
  payload_offset : Nat
deriving DecidableEq, Repr

namespace BinHeader

/-- Function `BinHeader::from_raw_section` of src/src/model/binheader.rs lines
98-109: copies `data[6..262]` as the signature and reads the seven layout
fields at fixed offsets; the last read touches bytes 284..288, so any buffer
shorter than 288 bytes makes one of the slice expressions panic. -/
def from_raw_section (data : List Nat) : RRes BinHeader :=
  if 288 ≤ data.length then
    .ok {
      signature := (data.drop 6).take 256
      header_length := readU16LE data 262
      file_length := readU32LE data 264
      metadata_offset := readU32LE data 268
      metadata_length := readU32LE data 272
      payload_header_offset := readU32LE data 276
      payload_header_length := readU32LE data 280
      payload_offset := readU32LE data 284 }
  else .panic

/-- Function `BinHeader::from_raw_source` of src/src/model/binheader.rs lines
113-115: delegates to `from_raw_section` on `data[0..]`. -/
def from_raw_source (data : List Nat) : RRes BinHeader :=
  from_raw_section (data.drop 0)

end BinHeader

/-- Constant `Rofl::MAGIC` of src/src/lib.rs line 93. -/
def MAGIC : List Nat := [82, 73, 79, 84]

/-- Guard at the top of `Rofl::from_slice`, src/src/lib.rs lines 242-244:
`slice.len() < Rofl::MAGIC.len() || Rofl::MAGIC != slice[..Rofl::MAGIC.len()]`
makes `from_slice` return `Err(())` (a unit error, not an `Errors` value)
before any header decoding; the take is safe because of the short-circuit
length test. -/
def from_slice_magic_rejects (slice : List Nat) : Bool :=
  decide (slice.length < MAGIC.length) || decide (MAGIC ≠ slice.take MAGIC.length)

/-- Struct `PayloadHeader` of src/src/model/payload.rs (identical copy in
src/src/lib.rs). -/
structure PayloadHeader where
  match_id : Nat
  match_length : Nat
  keyframe_count : Nat
  chunk_count : Nat
  end_startup_chunk_id : Nat
  start_game_chunk_id : Nat
  keyframe_interval : Nat
  encryption_key_length : Nat
  encryption_key : List Nat
deriving DecidableEq, Repr

/-- Struct `GenericSection` of src/src/model/section/generic.rs: one decoded
bit-flag-framed record (the borrowed `data` slice is stored by value here). -/
structure GenericSection where
  core_len : Nat
  data_type : Nat
  data : List Nat
deriving DecidableEq, Repr

namespace GenericSection

/-- Flag constant `TIME_BYTE` of src/src/model/section/generic.rs. -/
def TIME_BYTE : Nat := 0x80
/-- Flag constant `TYPE_BYTE` of src/src/model/section/generic.rs. -/
def TYPE_BYTE : Nat := 0x40
/-- Flag constant `BPARAM_BYTE` of src/src/model/section/generic.rs. -/
def BPARAM_BYTE : Nat := 0x20
/-- Flag constant `LENGTH_BYTE` of src/src/model/section/generic.rs. -/
def LENGTH_BYTE : Nat := 0x10

/-- Local `length_offset` of `GenericSection::from_slice`
(src/src/model/section/generic.rs lines 78-79): the marker byte plus the
1- or 4-byte time field. -/
def lenFieldOffset (m : Nat) : Nat :=
  1 + (if m &&& TIME_BYTE ≠ 0 then 1 else 4)

/-- Local `type_offset` of `GenericSection::from_slice` (lines 80-81): the
length field's offset plus its 1- or 4-byte width. -/
def typeFieldOffset (m : Nat) : Nat :=
  lenFieldOffset m + (if m &&& LENGTH_BYTE ≠ 0 then 1 else 4)

/-- Local `core_len` of `GenericSection::from_slice` (lines 82-84): the type
field's offset plus the 0- or 2-byte type width plus the 1- or 4-byte
parameter width. -/
def coreLenOfMarker (m : Nat) : Nat :=
  typeFieldOffset m + (if m &&& TYPE_BYTE ≠ 0 then 0 else 2)
    + (if m &&& BPARAM_BYTE ≠ 0 then 1 else 4)

/-- Local `data_len` of `GenericSection::from_slice` (lines 87-92): the
payload length, decoded as 1 byte when the narrow-length flag is set and as
4 bytes little-endian otherwise. -/
def payloadLenField (slice : List Nat) : Nat :=
  if slice.headD 0 &&& LENGTH_BYTE ≠ 0 then slice.getD (lenFieldOffset (slice.headD 0)) 0
  else readU32LE slice (lenFieldOffset (slice.headD 0))

/-- Function `GenericSection::from_slice` of src/src/model/section/generic.rs
lines 72-108: computes the field offsets from the marker byte's flags
(`lenFieldOffset`/`typeFieldOffset`/`coreLenOfMarker` above are its local
bindings), checks the core and core-plus-payload lengths, then resolves the
type either from the carried `last_datatype` (failing with `NoData` when
absent) or from the explicit 2-byte field, and keeps the first
`core_len + data_len` bytes. -/
def from_slice (slice : List Nat) (last_datatype : Option Nat) :
    Except Errors GenericSection :=
  if slice.length = 0 then .error .NoData
  else
    let marker := slice.headD 0
    let core_len := coreLenOfMarker marker
    if slice.length < core_len then .error .BufferTooSmall
    else
      let data_len := payloadLenField slice
      if slice.length < core_len + data_len then .error .BufferTooSmall
      else
        if marker &&& TYPE_BYTE ≠ 0 then
          match last_datatype with
          | none => .error .NoData
          | some t => .ok ⟨core_len, t, slice.take (core_len + data_len)⟩
        else .ok ⟨core_len, readU16LE slice (typeFieldOffset marker),
          slice.take (core_len + data_len)⟩

/-- Method `data_len` from the `SectionCore` impl for `GenericSection`
(src/src/model/section/generic.rs line 115). -/
def data_len (s : GenericSection) : Nat := s.data.length - s.core_len

/-- Default method `len` of trait `SectionCore` (src/src/model/section.rs
line 24). -/
def len (s : GenericSection) : Nat := s.core_len + s.data_len

end GenericSection

/-- Struct `GenericDataSegment` of src/src/segments.rs (the legacy
dispatch-table decoder for the same framed records). -/
structure GenericDataSegment where
  core_len : Nat
  data : List Nat
deriving DecidableEq, Repr

namespace GenericDataSegment

/-- Function `GenericDataSegment::buffer_to_generic` of src/src/segments.rs
lines 123-143: checks the core length, decodes the payload length field of
width `size_len` at `size_offset` (panicking on an unsupported width), checks
the total length, and keeps the first `core_size + data_len` bytes. -/
def buffer_to_generic (slice : List Nat) (size_offset size_len core_size : Nat) :
    RRes GenericDataSegment :=
  if slice.length < core_size then .err .BufferTooSmall
  else
    match (match size_len with
      | 0 => some 0
      | 1 => some (slice.getD size_offset 0)
      | 2 => some (readU16LE slice size_offset)
      | _ => none) with
    | none => .panic
    | some data_len =>
      if slice.length < core_size + data_len then .err .BufferTooSmall
      else .ok ⟨core_size, slice.take (core_size + data_len)⟩

/-- Function `GenericDataSegment::from_slice` of src/src/segments.rs lines
97-120: dispatches on the marker byte through the hard-coded table of
`(size_offset, size_len, core_size)` triples, rejecting unknown markers with
`InvalidBuffer`. -/
def from_slice (slice : List Nat) : RRes GenericDataSegment :=
  match slice with
  | [] => .err .NoData
  | m :: _ =>
    if m = 1 ∨ m = 2 then buffer_to_generic slice 5 2 15
    else if m = 17 then buffer_to_generic slice 5 1 12
    else if m = 32 then buffer_to_generic slice 4 1 12
    else if m = 33 then buffer_to_generic slice 5 2 12
    else if m = 49 ∨ m = 50 then buffer_to_generic slice 5 1 9
    else if m = 81 then buffer_to_generic slice 5 1 10
    else if m = 113 then buffer_to_generic slice 5 1 7
    else if m = 129 ∨ m = 130 then buffer_to_generic slice 2 2 12
    else if m = 145 ∨ m = 146 ∨ m = 147 then buffer_to_generic slice 2 1 9
    else if m = 149 then buffer_to_generic slice 4 1 13
    else if m = 161 ∨ m = 162 then buffer_to_generic slice 2 2 9
    else if m = 177 ∨ m = 178 ∨ m = 179 then buffer_to_generic slice 2 1 6
    else if m = 193 then buffer_to_generic slice 2 2 10
    else if m = 209 then buffer_to_generic slice 2 1 7
    else if m = 225 ∨ m = 226 then buffer_to_generic slice 2 2 7
    else if m = 241 ∨ m = 242 then buffer_to_generic slice 2 1 4
    else .err .InvalidBuffer

end GenericDataSegment

/-- Struct `SegmentIterator` of src/src/iter/segment.rs: cursor state of the
section iterator over a segment's decompressed bytes. -/
structure SegmentIterator where
  data : List Nat
  index : Nat
  last_error : Option Errors
  last_type : Option Nat
deriving DecidableEq, Repr

namespace SegmentIterator

/-- Constructor `SegmentIterator::new` of src/src/iter/segment.rs lines 17-24. -/
def new (data : List Nat) : SegmentIterator := ⟨data, 0, none, none⟩

/-- Method `SegmentIterator::is_valid` of src/src/iter/segment.rs line 26. -/
def is_valid (s : SegmentIterator) : Bool := s.last_error.isNone

/-- Method `Iterator::next` for `SegmentIterator`, src/src/iter/segment.rs
lines 46-59: ends the sequence when the cursor has reached the end of the
buffer; otherwise decodes one section at the cursor with the threaded
`last_type`, advancing the cursor and updating `last_type` on success, or
recording the error (and yielding nothing) on failure. -/
def next (s : SegmentIterator) : Option GenericSection × SegmentIterator :=
  if s.data.length ≤ s.index then (none, s)
  else
    match GenericSection.from_slice (s.data.drop s.index) s.last_type with
    | .ok f => (some f, { s with index := s.index + f.len, last_type := some f.data_type })
    | .error e => (none, { s with last_error := some e })

end SegmentIterator

/-- Struct `Segment` of src/src/model/segment.rs (identical copy in
src/src/lib.rs). -/
structure Segment where
  id : Nat
  segment_type : Nat
  length : Nat
  chunk_id : Nat
  offset : Nat
  data : List Nat
deriving DecidableEq, Repr

/-- Constant `SEGMENT_HEADER_LEN` of src/src/model/segment.rs line 9. -/
def SEGMENT_HEADER_LEN : Nat := 17

namespace Segment

/-- Method `Segment::len` of src/src/model/segment.rs line 39. -/
def len (s : Segment) : Nat := s.length

/-- Method `Segment::is_loaded` of src/src/model/segment.rs line 43. -/
def is_loaded (s : Segment) : Bool := !(s.data.isEmpty)

/-- Function `Segment::from_raw_section` of src/src/model/segment.rs lines
56-65: reads id/kind/length/chunk-back-reference/offset at fixed offsets of a
17-byte record.  The Rust reads panic when the buffer is shorter than 17
bytes; the only modelled caller, `from_slice`, checks that bound first, so a
total function with default 0 is faithful in the modelled paths. -/
def from_raw_section (data : List Nat) : Segment :=
  { id := readU32LE data 0
    segment_type := data.getD 4 0
    length := readU32LE data 5
    chunk_id := readU32LE data 9
    offset := readU32LE data 13
    data := [] }

/-- Function `Segment::from_slice` of src/src/model/segment.rs lines 69-75:
rejects buffers shorter than `SEGMENT_HEADER_LEN` with `BufferTooSmall`,
otherwise decodes via `from_raw_section`. -/
def from_slice (data : List Nat) : Except Errors Segment :=
  if data.length < SEGMENT_HEADER_LEN then .error .BufferTooSmall
  else .ok (from_raw_section data)

/-- Method `Segment::is_chunk` of src/src/model/segment.rs lines 84-86
(`SegmentType::Chunk = 1`). -/
def is_chunk (s : Segment) : Bool := s.segment_type == 1

/-- Method `Segment::is_keyframe` of src/src/model/segment.rs lines 88-90
(`SegmentType::Keyframe = 2`). -/
def is_keyframe (s : Segment) : Bool := s.segment_type == 2

/-- Method `Segment::section_iter` of src/src/model/segment.rs lines 92-98:
fails with `NoData` when the materialized buffer is empty, otherwise returns
a fresh `SegmentIterator` over it. -/
def section_iter (s : Segment) : Except Errors SegmentIterator :=
  if s.data.length = 0 then .error .NoData
  else .ok (SegmentIterator.new s.data)

end Segment

/-- Struct `PayloadIterator` of src/src/iter/payload.rs: cursor state of the
segment-header iterator (the Blowfish cipher field is abstracted away; the
block decryption is the `db` parameter of `next`). -/
structure PayloadIterator where
  data : List Nat
  index : Nat
  segment_count : Nat
  last_error : Option Errors
  parse_data : Bool
deriving DecidableEq, Repr

namespace PayloadIterator

/-- Method `PayloadIterator::is_valid` of src/src/iter/payload.rs line 48. -/
def is_valid (s : PayloadIterator) : Bool := s.last_error.isNone

/-- Method `Iterator::next` for `PayloadIterator`, src/src/iter/payload.rs
lines 68-92 (with the `payload` feature enabled): ends the sequence after
`segment_count` items; otherwise decodes the 17-byte header record at the
cursor, and when `parse_data` is set checks the segment's data span against
the buffer and materializes it with `decrypt_segment` into the fresh
segment's (empty) data vector.  Any step failure records the error without
advancing the cursor and yields nothing.  The outer `Option` models a Rust
panic escaping from `decrypt_segment` (`none`). -/
def next (db : List Nat → List Nat) (gz : List Nat → Option (List Nat))
    (s : PayloadIterator) : Option (Option Segment × PayloadIterator) :=
  if s.segment_count ≤ s.index then some (none, s)
  else
    match Segment.from_slice (s.data.drop (s.index * SEGMENT_HEADER_LEN)) with
    | .error e => some (none, { s with last_error := some e })
    | .ok f =>
      if s.parse_data then
        if s.data.length < SEGMENT_HEADER_LEN * s.segment_count + f.offset + f.len then
          some (none, { s with last_error := some .BufferTooSmall })
        else
          match decrypt_segment db gz
              ((s.data.drop (SEGMENT_HEADER_LEN * s.segment_count + f.offset)).take
                f.len) f.data with
          | .panic => none
          | .err e => some (none, { s with last_error := some e })
          | .ok d => some (some { f with data := d }, { s with index := s.index + 1 })
      else some (some f, { s with index := s.index + 1 })

end PayloadIterator

/-- Struct `Rofl` of src/src/lib.rs, restricted to the fields touched by the
modelled operations (`load_segment`/`load_chunk`/`load_keyframe` take the
file bytes as an explicit `slice` argument and do not read `self.data`,
`self.metadata` or `self.cipher`). -/
structure Rofl where
  head : BinHeader
  payload : Option PayloadHeader
  chunks : List Segment
  keyframes : List Segment
deriving DecidableEq, Repr

namespace Rofl

/-- Function `Rofl::load_segment` of src/src/lib.rs lines 203-230: looks up
the segment by 1-based id in the chunk or keyframe list (`id as usize - 1`
underflows and panics in a debug build when `id = 0`), unwraps the payload
header (panicking when absent), slices the encrypted region out of `slice`
at `payload_data_start + offset`, decrypts it without depadding, then applies
the inline depad checks (`BufferTooSmall` when shorter than the segment
length, `InvalidBuffer` when the pad byte exceeds 8) and gzip-inflates the
depadded bytes, appending to the segment's existing data vector.  There is
no is-already-loaded check before any of this. -/
def load_segment (db : List Nat → List Nat) (gz : List Nat → Option (List Nat))
    (rf : Rofl) (id : Nat) (is_chunk : Bool) (slice : List Nat) :
    RRes (Rofl × Segment) :=
  if id = 0 then .panic
  else
    let idx := id - 1
    match (if is_chunk then rf.chunks.get? idx else rf.keyframes.get? idx) with
    | none => .err .NoData
    | some segment =>
      match rf.payload with
      | none => .panic
      | some p =>
        let payload_number := p.chunk_count + p.keyframe_count
        let payload_data_start := rf.head.payload_offset
          + SEGMENT_HEADER_LEN * payload_number
        match sliceRange slice (payload_data_start + segment.offset)
            (payload_data_start + segment.offset + segment.len) with
        | none => .panic
        | some enc =>
          match blowfish_decrypt db enc false with
          | .panic => .panic
          | .err e => .err e
          | .ok decrypted_data =>
            if decrypted_data.length < segment.len then .err .BufferTooSmall
            else
              let padding := decrypted_data.getD (segment.len - 1) 0
              if 8 < padding then .err .InvalidBuffer
              else
                match gz (decrypted_data.take (segment.len - padding)) with
                | none => .err .InvalidBuffer
                | some g =>
                  let seg' := { segment with data := segment.data ++ g }
                  let rf' := if is_chunk then { rf with chunks := rf.chunks.set idx seg' }
                    else { rf with keyframes := rf.keyframes.set idx seg' }
                  .ok (rf', seg')

/-- Function `Rofl::load_chunk` of src/src/lib.rs lines 232-234. -/
def load_chunk (db : List Nat → List Nat) (gz : List Nat → Option (List Nat))
    (rf : Rofl) (id : Nat) (slice : List Nat) : RRes (Rofl × Segment) :=
  load_segment db gz rf id true slice

/-- Function `Rofl::load_keyframe` of src/src/lib.rs lines 236-238. -/
def load_keyframe (db : List Nat → List Nat) (gz : List Nat → Option (List Nat))
    (rf : Rofl) (id : Nat) (slice : List Nat) : RRes (Rofl × Segment) :=
  load_segment db gz rf id false slice

/-- Body of the per-segment loop of `Rofl::load_segments`, src/src/lib.rs
lines 184-198: a segment is materialized only when `is_loaded` is false, by
slicing its encrypted region out of the file bytes (slice indexing panics
when out of range) and running `rofl_decrypt_decompress` into its data
vector; already-loaded segments are left untouched. -/
def load_segments_step (db : List Nat → List Nat)
    (gz : List Nat → Option (List Nat)) (fileData : List Nat)
    (payload_data_start : Nat) (segment : Segment) : RRes Segment :=
  if segment.is_loaded then .ok segment
  else
    match sliceRange fileData (payload_data_start + segment.offset)
        (payload_data_start + segment.offset + segment.len) with
    | none => .panic
    | some enc =>
      match rofl_decrypt_decompress db gz enc segment.data with
      | .panic => .panic
      | .err e => .err e
      | .ok d => .ok { segment with data := d }

end Rofl

/-- Concrete test fixture: a `Rofl` state with a zeroed header, a payload
header announcing one chunk and no keyframes, and a single chunk segment of
encrypted length 8 at offset 0 that is already materialized with bytes
`[9]`. -/
def exampleRofl : Rofl :=
  ⟨⟨[], 0, 0, 0, 0, 0, 0, 0⟩, some ⟨0, 0, 0, 1, 0, 0, 0, 0, []⟩,
    [⟨1, 1, 8, 0, 0, [9]⟩], []⟩

/-- Concrete test fixture: `exampleRofl` after its chunk's data has been
duplicated to `[9, 9]`. -/
def exampleRoflAfter : Rofl :=
  ⟨⟨[], 0, 0, 0, 0, 0, 0, 0⟩, some ⟨0, 0, 0, 1, 0, 0, 0, 0, []⟩,
    [⟨1, 1, 8, 0, 0, [9, 9]⟩], []⟩

/-! Helper lemmas shared by several claim proofs. -/

/-- Characterization of a successful `GenericSection.from_slice`: the stored
core length is the flag-determined one, the stored bytes are the prefix of
length core-plus-payload, and the input was long enough. -/
lemma GenericSection.from_slice_ok_spec {slice : List Nat} {ldt : Option Nat}
    {s : GenericSection} (h : GenericSection.from_slice slice ldt = .ok s) :
    s.core_len = GenericSection.coreLenOfMarker (slice.headD 0)
    ∧ s.data = slice.take (GenericSection.coreLenOfMarker (slice.headD 0)
        + GenericSection.payloadLenField slice)
    ∧ GenericSection.coreLenOfMarker (slice.headD 0)
        + GenericSection.payloadLenField slice ≤ slice.length := by
  simp only [GenericSection.from_slice] at h
  split at h
  · exact absurd h (by simp)
  split at h
  · exact absurd h (by simp)
  split at h
  · exact absurd h (by simp)
  split at h
  · split at h
    · exact absurd h (by simp)
    · simp only [Except.ok.injEq] at h
      subst h
      exact ⟨rfl, rfl, by omega⟩
  · simp only [Except.ok.injEq] at h
    subst h
    exact ⟨rfl, rfl, by omega⟩

/-- Characterization of a successful `buffer_to_generic`: the stored core
length is the table-provided `core_size`. -/
lemma GenericDataSegment.buffer_to_generic_ok_core {slice : List Nat}
    {so sl cs : Nat} {s : GenericDataSegment}
    (h : GenericDataSegment.buffer_to_generic slice so sl cs = .ok s) :
    s.core_len = cs := by
  unfold GenericDataSegment.buffer_to_generic at h
  split at h
  · exact absurd h (by simp)
  · split at h
    · exact absurd h (by simp)
    · split at h
      · exact absurd h (by simp)
      · simp only [RRes.ok.injEq] at h
        subst h
        rfl

/-! Claim C5: section total length and consumed bytes. -/

/-- Claim C5: for every marker byte and every input on which the Section
decode succeeds, the decoded section's total length is the flag-determined
core header length (1 plus the time, length, type and parameter widths
selected by bits 0x80/0x10/0x40/0x20 of the marker) plus the decoded
payload-length field's value, and the section's bytes are exactly the first
total-length bytes of the input slice. -/
theorem c5_section_total_len (slice : List Nat) (ldt : Option Nat)
    (s : GenericSection) (h : GenericSection.from_slice slice ldt = .ok s) :
    s.len = GenericSection.coreLenOfMarker (slice.headD 0)
        + GenericSection.payloadLenField slice
    ∧ s.core_len = GenericSection.coreLenOfMarker (slice.headD 0)
    ∧ s.data = slice.take s.len
    ∧ GenericSection.coreLenOfMarker (slice.headD 0)
      = 1 + (if slice.headD 0 &&& 0x80 ≠ 0 then 1 else 4)
        + (if slice.headD 0 &&& 0x10 ≠ 0 then 1 else 4)
        + (if slice.headD 0 &&& 0x40 ≠ 0 then 0 else 2)
        + (if slice.headD 0 &&& 0x20 ≠ 0 then 1 else 4) := by
  obtain ⟨hc, hd, hle⟩ := GenericSection.from_slice_ok_spec h
  have hdl : s.data.length = GenericSection.coreLenOfMarker (slice.headD 0)
      + GenericSection.payloadLenField slice := by
    rw [hd, List.length_take]
    omega
  have hlen : s.len = GenericSection.coreLenOfMarker (slice.headD 0)
      + GenericSection.payloadLenField slice := by
    rw [GenericSection.len, GenericSection.data_len, hc, hdl]
    omega
  refine ⟨hlen, hc, by rw [hlen]; exact hd, ?_⟩
  rw [GenericSection.coreLenOfMarker, GenericSection.typeFieldOffset,
    GenericSection.lenFieldOffset, GenericSection.TIME_BYTE,
    GenericSection.LENGTH_BYTE, GenericSection.TYPE_BYTE,
    GenericSection.BPARAM_BYTE]

/-- Claim C5 witness: the theorem applied to a concrete 8-byte section with
marker 177 (relative time, narrow length, explicit type, narrow parameter). -/
theorem c5_section_total_len_witness :
    (⟨6, 0, [177, 5, 2, 0, 0, 7, 8, 9]⟩ : GenericSection).len
      = GenericSection.coreLenOfMarker ([177, 5, 2, 0, 0, 7, 8, 9].headD 0)
        + GenericSection.payloadLenField [177, 5, 2, 0, 0, 7, 8, 9] :=
  (c5_section_total_len [177, 5, 2, 0, 0, 7, 8, 9] none
    ⟨6, 0, [177, 5, 2, 0, 0, 7, 8, 9]⟩ (by decide)).1

/-! Claim C3: legacy dispatch-table decoder vs bit-flag decoder.
The claim is falsified at marker value 149: the table decoder assigns it core
length 13 (entry `149 => buffer_to_generic(&slice, 4, 1, 13)`) while the
bit-flag decoder computes 1+1+1+2+4 = 9.  The decoders agree on every other
marker value accepted by both. -/

/-- Claim C3 counterexample: on a 13-byte buffer with marker 149 both
decoders succeed but compute different core header lengths (13 vs 9). -/
theorem c3_counterexample :
    GenericDataSegment.from_slice [149, 0, 0, 0, 0, 0, 0, 0, 0, 0, 0, 0, 0]
      = .ok ⟨13, [149, 0, 0, 0, 0, 0, 0, 0, 0, 0, 0, 0, 0]⟩
    ∧ GenericSection.from_slice [149, 0, 0, 0, 0, 0, 0, 0, 0, 0, 0, 0, 0] none
      = .ok ⟨9, 0, [149, 0, 0, 0, 0, 0, 0, 0, 0]⟩
    ∧ (13 : Nat) ≠ 9 := by
  decide

/-- Claim C3 (amended): for every marker value accepted by both the legacy
dispatch-table decoder and the bit-flag decoder, the two compute identical
core header lengths, except marker 149, where the table gives 13 and the
bit-flag decoder gives 9. -/
theorem c3_core_len_agree_amended (slice : List Nat) (ldt : Option Nat)
    (s1 : GenericDataSegment) (s2 : GenericSection)
    (h1 : GenericDataSegment.from_slice slice = .ok s1)
    (h2 : GenericSection.from_slice slice ldt = .ok s2)
    (hne : slice.headD 0 ≠ 149) :
    s1.core_len = s2.core_len := by
  have hc2 := (GenericSection.from_slice_ok_spec h2).1
  rcases slice with _ | ⟨m, rest⟩
  · exact absurd h1 (by simp [GenericDataSegment.from_slice])
  simp only [List.headD_cons] at hc2 hne
  simp only [GenericDataSegment.from_slice] at h1
  by_cases e00 : m = 1 ∨ m = 2
  · rw [if_pos e00] at h1
    rcases e00 with rfl | rfl <;>
      rw [GenericDataSegment.buffer_to_generic_ok_core h1, hc2] <;> decide
  rw [if_neg e00] at h1
  by_cases e01 : m = 17
  · rw [if_pos e01] at h1
    rcases e01 with rfl
    rw [GenericDataSegment.buffer_to_generic_ok_core h1, hc2]
    decide
  rw [if_neg e01] at h1
  by_cases e02 : m = 32
  · rw [if_pos e02] at h1
    rcases e02 with rfl
    rw [GenericDataSegment.buffer_to_generic_ok_core h1, hc2]
    decide
  rw [if_neg e02] at h1
  by_cases e03 : m = 33
  · rw [if_pos e03] at h1
    rcases e03 with rfl
    rw [GenericDataSegment.buffer_to_generic_ok_core h1, hc2]
    decide
  rw [if_neg e03] at h1
  by_cases e04 : m = 49 ∨ m = 50
  · rw [if_pos e04] at h1
    rcases e04 with rfl | rfl <;>
      rw [GenericDataSegment.buffer_to_generic_ok_core h1, hc2] <;> decide
  rw [if_neg e04] at h1
  by_cases e05 : m = 81
  · rw [if_pos e05] at h1
    rcases e05 with rfl
    rw [GenericDataSegment.buffer_to_generic_ok_core h1, hc2]
    decide
  rw [if_neg e05] at h1
  by_cases e06 : m = 113
  · rw [if_pos e06] at h1
    rcases e06 with rfl
    rw [GenericDataSegment.buffer_to_generic_ok_core h1, hc2]
    decide
  rw [if_neg e06] at h1
  by_cases e07 : m = 129 ∨ m = 130
  · rw [if_pos e07] at h1
    rcases e07 with rfl | rfl <;>
      rw [GenericDataSegment.buffer_to_generic_ok_core h1, hc2] <;> decide
  rw [if_neg e07] at h1
  by_cases e08 : m = 145 ∨ m = 146 ∨ m = 147
  · rw [if_pos e08] at h1
    rcases e08 with rfl | rfl | rfl <;>
      rw [GenericDataSegment.buffer_to_generic_ok_core h1, hc2] <;> decide
  rw [if_neg e08] at h1
  by_cases e09 : m = 149
  · exact absurd e09 hne
  rw [if_neg e09] at h1
  by_cases e10 : m = 161 ∨ m = 162
  · rw [if_pos e10] at h1
    rcases e10 with rfl | rfl <;>
      rw [GenericDataSegment.buffer_to_generic_ok_core h1, hc2] <;> decide
  rw [if_neg e10] at h1
  by_cases e11 : m = 177 ∨ m = 178 ∨ m = 179
  · rw [if_pos e11] at h1
    rcases e11 with rfl | rfl | rfl <;>
      rw [GenericDataSegment.buffer_to_generic_ok_core h1, hc2] <;> decide
  rw [if_neg e11] at h1
  by_cases e12 : m = 193
  · rw [if_pos e12] at h1
    rcases e12 with rfl
    rw [GenericDataSegment.buffer_to_generic_ok_core h1, hc2]
    decide
  rw [if_neg e12] at h1
  by_cases e13 : m = 209
  · rw [if_pos e13] at h1
    rcases e13 with rfl
    rw [GenericDataSegment.buffer_to_generic_ok_core h1, hc2]
    decide
  rw [if_neg e13] at h1
  by_cases e14 : m = 225 ∨ m = 226
  · rw [if_pos e14] at h1
    rcases e14 with rfl | rfl <;>
      rw [GenericDataSegment.buffer_to_generic_ok_core h1, hc2] <;> decide
  rw [if_neg e14] at h1
  by_cases e15 : m = 241 ∨ m = 242
  · rw [if_pos e15] at h1
    rcases e15 with rfl | rfl <;>
      rw [GenericDataSegment.buffer_to_generic_ok_core h1, hc2] <;> decide
  rw [if_neg e15] at h1
  exact absurd h1 (by simp)

/-- Claim C3 amended-theorem witness at marker 1 (both decoders give 15). -/
theorem c3_core_len_agree_amended_witness :
    (⟨15, 1 :: List.replicate 14 0⟩ : GenericDataSegment).core_len
      = (⟨15, 0, 1 :: List.replicate 14 0⟩ : GenericSection).core_len :=
  c3_core_len_agree_amended (1 :: List.replicate 14 0) none
    ⟨15, 1 :: List.replicate 14 0⟩ ⟨15, 0, 1 :: List.replicate 14 0⟩
    (by decide) (by decide) (by decide)

/-! Claim C1: depad behavior of the decrypt-with-depad operations.
The claim is falsified: the low-level depad (in `blowfish_decrypt`,
`blow_decrypt` and `decrypt_segment`) panics on an assertion when the pad
length exceeds the buffer length instead of returning `BufferTooSmall`, and
performs no `p > 8` check at all, truncating by any `p` that fits. -/

/-- Claim C1 counterexample: with pad byte 16 on an 8-byte input the
key-derivation decryptor panics (claim: error return); with pad byte 16 on a
16-byte input it truncates happily (claim: `InvalidBuffer` since 16 > 8). -/
theorem c1_counterexample :
    blowfish_decrypt (fun l => l) [0, 0, 0, 0, 0, 0, 0, 16] true = .panic
    ∧ blowfish_decrypt (fun l => l) [0, 0, 0, 0, 0, 0, 0, 16] true
        ≠ .err Errors.BufferTooSmall
    ∧ blowfish_decrypt (fun l => l) [0, 0, 0, 0, 0, 0, 0, 16] true
        ≠ .err Errors.InvalidBuffer
    ∧ blowfish_decrypt (fun l => l) (List.replicate 15 0 ++ [16]) true = .ok []
    ∧ blowfish_decrypt (fun l => l) (List.replicate 15 0 ++ [16]) true
        ≠ .err Errors.InvalidBuffer := by
  decide

/-- Claim C1 (amended): write `ds` for the block-decrypted buffer and `p` for
its last byte.  In the low-level depad (`blowfish_decrypt` as used for key
derivation, and `decrypt_segment` as used for eager segment materialization)
the buffer is truncated by exactly `p` bytes whenever `p` fits — with no
`p > 8` check — and the operation panics (assertion), rather than returning
`BufferTooSmall`, when `p` exceeds the total length.  The
`rofl_decrypt_decompress` materialization path runs its documented checks
only after `blow_decrypt` has already depadded, so it returns
`BufferTooSmall` for every non-zero `p` and reaches gzip only when `p = 0`. -/
theorem c1_depad_amended (db : List Nat → List Nat)
    (gz : List Nat → Option (List Nat)) (cipher out ds : List Nat) (p : Nat)
    (hds : ds = applyBlocks db cipher)
    (hp : p = ds.getD (ds.length - 1) 0)
    (hlen : ds.length = cipher.length)
    (h8 : cipher.length % 8 = 0) (h0 : cipher ≠ []) :
    (p ≤ ds.length → blowfish_decrypt db cipher true = .ok (ds.take (ds.length - p)))
    ∧ (ds.length < p → blowfish_decrypt db cipher true = .panic)
    ∧ (p ≤ ds.length → decrypt_segment db gz cipher out
        = match gz (ds.take (ds.length - p)) with
          | none => .err Errors.InvalidBuffer
          | some g => .ok (out ++ g))
    ∧ (ds.length < p → decrypt_segment db gz cipher out = .panic)
    ∧ (0 < p → p ≤ ds.length →
        rofl_decrypt_decompress db gz cipher out = .err Errors.BufferTooSmall)
    ∧ (p = 0 → rofl_decrypt_decompress db gz cipher out
        = match gz ds with
          | none => .err Errors.InvalidBuffer
          | some g => .ok (out ++ g)) := by
  have hne : cipher.length ≠ 0 := by
    intro hcl
    exact h0 (List.length_eq_zero.mp hcl)
  have hdsne : ds.length ≠ 0 := by omega
  subst hp
  have hblow : ds.getD (ds.length - 1) 0 ≤ ds.length →
      blow_decrypt db cipher true
        = .ok (ds.take (ds.length - ds.getD (ds.length - 1) 0)) := by
    intro hple
    unfold blow_decrypt
    rw [← hds]
    split_ifs <;> first | rfl | omega | exact absurd rfl (by assumption)
  refine ⟨?_, ?_, ?_, ?_, ?_, ?_⟩
  · intro hple
    unfold blowfish_decrypt
    rw [← hds]
    split_ifs <;> first | rfl | omega | exact absurd rfl (by assumption)
  · intro hgt
    unfold blowfish_decrypt
    rw [← hds]
    split_ifs <;> first | rfl | omega | exact absurd rfl (by assumption)
  · intro hple
    unfold decrypt_segment
    rw [← hds]
    split_ifs <;> first | rfl | omega
  · intro hgt
    unfold decrypt_segment
    rw [← hds]
    split_ifs <;> first | rfl | omega
  · intro hpos hple
    unfold rofl_decrypt_decompress
    rw [hblow hple]
    simp only [RRes.bind]
    rw [if_pos]
    rw [List.length_take]
    omega
  · intro hzero
    have hb := hblow (by omega)
    rw [hzero, Nat.sub_zero, List.take_length] at hb
    unfold rofl_decrypt_decompress
    rw [hb]
    simp only [RRes.bind]
    rw [if_neg (by omega), ← hlen, hzero, if_neg (by omega), Nat.sub_zero,
      List.take_length]

/-- Claim C1 amended-theorem witness: concrete 8-byte input with pad byte 2 —
the low-level depad truncates to 6 bytes, and the
`rofl_decrypt_decompress` path reports `BufferTooSmall` because the pad is
non-zero. -/
theorem c1_depad_amended_witness :
    blowfish_decrypt (fun l => l) [1, 2, 3, 4, 5, 6, 7, 2] true
      = .ok [1, 2, 3, 4, 5, 6]
    ∧ rofl_decrypt_decompress (fun l => l) (fun _ => some [7])
        [1, 2, 3, 4, 5, 6, 7, 2] [] = .err Errors.BufferTooSmall := by
  have h := c1_depad_amended (fun l => l) (fun _ => some [7])
    [1, 2, 3, 4, 5, 6, 7, 2] [] [1, 2, 3, 4, 5, 6, 7, 2] 2
    (by decide) (by decide) (by decide) (by decide) (by decide)
  exact ⟨(h.1 (by decide)).trans (by decide), h.2.2.2.2.1 (by decide) (by decide)⟩

/-! Claim C6: Segment kind dichotomy.
The claim is falsified: `Segment::from_slice` performs no kind-byte check, so
a 17-byte record with kind byte 0 decodes successfully into a segment that is
neither a chunk nor a keyframe. -/

/-- Claim C6 counterexample: the all-zero 17-byte record decodes successfully
(no `InvalidBuffer`), and the resulting segment is neither a chunk nor a
keyframe — a third state the claim says cannot exist. -/
theorem c6_counterexample :
    Segment.from_slice (List.replicate 17 0)
      = .ok { id := 0, segment_type := 0, length := 0, chunk_id := 0, offset := 0, data := [] }
    ∧ Segment.from_slice (List.replicate 17 0) ≠ .error Errors.InvalidBuffer
    ∧ (Segment.from_raw_section (List.replicate 17 0)).is_chunk = false
    ∧ (Segment.from_raw_section (List.replicate 17 0)).is_keyframe = false := by
  decide

/-- Claim C6 (amended): decoding a 17-byte segment header record succeeds for
every kind byte (only a buffer shorter than 17 bytes fails, with
`BufferTooSmall`); `is_chunk` holds exactly for kind byte 1 and `is_keyframe`
exactly for kind byte 2, so at most one of the two holds, but a decoded
segment whose kind byte is neither value is in neither state. -/
theorem c6_kind_amended (data : List Nat) (s : Segment) :
    (Segment.from_slice data = .ok s →
      ¬(s.is_chunk = true ∧ s.is_keyframe = true)
      ∧ (s.is_chunk = true ↔ data.getD 4 0 = 1)
      ∧ (s.is_keyframe = true ↔ data.getD 4 0 = 2))
    ∧ (data.length < 17 → Segment.from_slice data = .error Errors.BufferTooSmall)
    ∧ (17 ≤ data.length → Segment.from_slice data = .ok (Segment.from_raw_section data)) := by
  refine ⟨?_, ?_, ?_⟩
  · intro h
    unfold Segment.from_slice at h
    split at h
    · exact absurd h (by simp)
    · simp only [Except.ok.injEq] at h
      subst h
      refine ⟨?_, ?_, ?_⟩ <;>
        simp [Segment.is_chunk, Segment.is_keyframe, Segment.from_raw_section]
      omega
  · intro h
    unfold Segment.from_slice
    rw [if_pos]
    simpa [SEGMENT_HEADER_LEN] using h
  · intro h
    unfold Segment.from_slice
    rw [if_neg]
    simp [SEGMENT_HEADER_LEN]
    omega

/-- Claim C6 amended-theorem witness at a concrete input (kind byte 2,
a 17-byte record). -/
theorem c6_kind_amended_witness :
    ¬((Segment.from_raw_section (2 :: 0 :: List.replicate 15 2)).is_chunk = true
      ∧ (Segment.from_raw_section (2 :: 0 :: List.replicate 15 2)).is_keyframe = true)
    ∧ ((Segment.from_raw_section (2 :: 0 :: List.replicate 15 2)).is_keyframe = true
        ↔ (2 :: 0 :: List.replicate 15 2).getD 4 0 = 2) := by
  have h := c6_kind_amended (2 :: 0 :: List.replicate 15 2)
    (Segment.from_raw_section (2 :: 0 :: List.replicate 15 2))
  have hok := h.2.2 (by decide)
  exact ⟨(h.1 hok).1, (h.1 hok).2.2⟩

/-! Claim C7: misaligned encrypted region.
The claim is falsified: a segment whose encrypted region length is not a
multiple of 8 makes materialization panic (a failed alignment assertion in
`blowfish_decrypt`, an out-of-range block slice in `decrypt_segment`), not
return `InvalidBuffer`. -/

/-- Claim C7 counterexample: a 3-byte encrypted region panics in
`decrypt_segment` (and in `blowfish_decrypt`), instead of the claimed
`InvalidBuffer` error result. -/
theorem c7_counterexample :
    decrypt_segment (fun l => l) (fun _ => none) [0, 0, 0] [] = .panic
    ∧ decrypt_segment (fun l => l) (fun _ => none) [0, 0, 0] []
        ≠ .err Errors.InvalidBuffer
    ∧ blowfish_decrypt (fun l => l) [0, 0, 0] false = .panic := by
  decide

/-- Claim C7 (amended): for every segment whose encrypted region length is
not a multiple of 8 bytes, every decryption entry point of the pipeline
panics — `blowfish_decrypt` on its alignment assertion, `blow_decrypt` and
`decrypt_segment` on the out-of-range 8-byte block slice — rather than
returning `InvalidBuffer`. -/
theorem c7_misaligned_amended (db : List Nat → List Nat)
    (gz : List Nat → Option (List Nat)) (cipher out : List Nat) (dp : Bool)
    (h : cipher.length % 8 ≠ 0) :
    decrypt_segment db gz cipher out = .panic
    ∧ blowfish_decrypt db cipher dp = .panic
    ∧ blow_decrypt db cipher dp = .panic := by
  refine ⟨?_, ?_, ?_⟩ <;>
    simp [decrypt_segment, blowfish_decrypt, blow_decrypt, h]

/-- Claim C7 amended-theorem witness at a concrete 5-byte region. -/
theorem c7_misaligned_amended_witness :
    decrypt_segment (fun l => l) (fun _ => some []) [1, 2, 3, 4, 5] [7] = .panic
    ∧ blowfish_decrypt (fun l => l) [1, 2, 3, 4, 5] true = .panic
    ∧ blow_decrypt (fun l => l) [1, 2, 3, 4, 5] true = .panic :=
  c7_misaligned_amended (fun l => l) (fun _ => some []) [1, 2, 3, 4, 5] [7] true
    (by decide)

/-! Claim C8: BinHeader decode failure mode.
The claim is falsified: `BinHeader::from_raw_source` performs no magic check
and panics (out-of-range slice) on buffers shorter than 288 bytes; the magic
check lives in `Rofl::from_slice`, which returns a unit error `Err(())`, not
`Errors::InvalidBuffer`. -/

/-- Claim C8 counterexample: the empty buffer makes `BinHeader::from_raw_source`
panic instead of returning the claimed `InvalidBuffer` result. -/
theorem c8_counterexample :
    BinHeader.from_raw_source [] = .panic
    ∧ BinHeader.from_raw_source [] ≠ .err Errors.InvalidBuffer := by
  decide

/-- Claim C8 (amended): a buffer shorter than the 288-byte fixed header extent
makes `BinHeader::from_raw_source` panic on an out-of-range slice (a buffer of
288 bytes or more always decodes); `from_raw_source` itself checks no magic —
the magic test is the entry guard of `Rofl::from_slice`, which rejects (with a
unit error, not `InvalidBuffer`) exactly the buffers that are shorter than 4
bytes or whose first 4 bytes differ from `MAGIC`. -/
theorem c8_header_amended (data : List Nat) :
    (data.length < 288 → BinHeader.from_raw_source data = .panic)
    ∧ (288 ≤ data.length →
        BinHeader.from_raw_source data = .ok (BinHeader.mk
          ((data.drop 6).take 256) (readU16LE data 262) (readU32LE data 264)
          (readU32LE data 268) (readU32LE data 272) (readU32LE data 276)
          (readU32LE data 280) (readU32LE data 284)))
    ∧ (from_slice_magic_rejects data = true
        ↔ data.length < 4 ∨ MAGIC ≠ data.take 4) := by
  refine ⟨?_, ?_, ?_⟩
  · intro h
    simp [BinHeader.from_raw_source, BinHeader.from_raw_section]
    omega
  · intro h
    simp [BinHeader.from_raw_source, BinHeader.from_raw_section, h]
  · simp [from_slice_magic_rejects, MAGIC]

/-- Claim C8 amended-theorem witness: a 287-byte buffer (one byte short, with
valid magic) panics, and the magic guard accepts a 4-byte magic-only buffer. -/
theorem c8_header_amended_witness :
    BinHeader.from_raw_source (82 :: 73 :: 79 :: 84 :: List.replicate 283 0) = .panic
    ∧ (from_slice_magic_rejects (82 :: 73 :: 79 :: 84 :: List.replicate 283 0) = true
        ↔ (82 :: 73 :: 79 :: 84 :: (List.replicate 283 0 : List Nat)).length < 4
          ∨ MAGIC ≠ (82 :: 73 :: 79 :: 84 :: List.replicate 283 0).take 4) :=
  ⟨(c8_header_amended (82 :: 73 :: 79 :: 84 :: List.replicate 283 0)).1 (by decide),
   (c8_header_amended (82 :: 73 :: 79 :: 84 :: List.replicate 283 0)).2.2⟩

/-! Claim C4: type-carry resolution. -/

/-- Claim C4: a section decoded with the type-inherit flag (0x40) set
resolves its type to the threaded `last_datatype` value; after every
successful iterator step the threaded value equals the yielded section's
resolved type (so a carrying section resolves to the type most recently
established by a preceding section); and when no prior type exists — the
very first decode of a stream — a carrying section fails with `NoData`
(given the length checks pass), which the iterator surfaces as an ended
sequence with `NoData` recorded, not as a default-typed section. -/
theorem c4_type_carry :
    (∀ (slice : List Nat) (t : Nat) (s : GenericSection),
        GenericSection.from_slice slice (some t) = .ok s →
        slice.headD 0 &&& GenericSection.TYPE_BYTE ≠ 0 → s.data_type = t)
    ∧ (∀ (st st' : SegmentIterator) (f : GenericSection),
        SegmentIterator.next st = (some f, st') → st'.last_type = some f.data_type)
    ∧ (∀ slice : List Nat,
        slice.headD 0 &&& GenericSection.TYPE_BYTE ≠ 0 →
        GenericSection.coreLenOfMarker (slice.headD 0)
            + GenericSection.payloadLenField slice ≤ slice.length →
        slice ≠ [] →
        GenericSection.from_slice slice none = .error Errors.NoData)
    ∧ (∀ data : List Nat, data ≠ [] →
        GenericSection.from_slice data none = .error Errors.NoData →
        (SegmentIterator.new data).next
          = (none, ⟨data, 0, some Errors.NoData, none⟩)) := by
  refine ⟨?_, ?_, ?_, ?_⟩
  · intro slice t s h hflag
    simp only [GenericSection.from_slice] at h
    split at h
    · exact absurd h (by simp)
    split at h
    · exact absurd h (by simp)
    split at h
    · exact absurd h (by simp)
    simp only [Except.ok.injEq] at h
    subst h
    rfl
  · intro st st' f h
    unfold SegmentIterator.next at h
    split at h
    · exact absurd h (by simp)
    split at h
    · next f' heq =>
      simp only [Prod.mk.injEq, Option.some.injEq] at h
      obtain ⟨rfl, rfl⟩ := h
      rfl
    · exact absurd h (by simp)
  · intro slice hflag hlen hne
    have hlp : 0 < slice.length := List.length_pos.mpr hne
    simp only [GenericSection.from_slice]
    rw [if_neg (by omega), if_neg (by omega), if_neg (by omega), if_pos hflag]
  · intro data hne h
    have hlp : 0 < data.length := List.length_pos.mpr hne
    simp only [SegmentIterator.next, SegmentIterator.new, List.drop_zero, h]
    split_ifs with hc
    · exact absurd hc (by omega)
    · rfl

/-- Claim C4 witness: with a prior type 42, the carrying marker 241 resolves
to 42; after a step yielding an explicit-type section the threaded type is
that section's type; and the first decode of a carrying stream surfaces
`NoData` through the iterator. -/
theorem c4_type_carry_witness :
    (⟨4, 42, [241, 0, 0, 0]⟩ : GenericSection).data_type = 42
    ∧ (⟨[49, 0, 0, 0, 0, 0, 7, 0, 5], 9, none, some 7⟩ : SegmentIterator).last_type
        = some (⟨9, 7, [49, 0, 0, 0, 0, 0, 7, 0, 5]⟩ : GenericSection).data_type
    ∧ (SegmentIterator.new [241, 0, 0, 0]).next
        = (none, ⟨[241, 0, 0, 0], 0, some Errors.NoData, none⟩) := by
  refine ⟨c4_type_carry.1 [241, 0, 0, 0] 42 ⟨4, 42, [241, 0, 0, 0]⟩
      (by decide) (by decide),
    c4_type_carry.2.1 (SegmentIterator.new [49, 0, 0, 0, 0, 0, 7, 0, 5])
      ⟨[49, 0, 0, 0, 0, 0, 7, 0, 5], 9, none, some 7⟩
      ⟨9, 7, [49, 0, 0, 0, 0, 0, 7, 0, 5]⟩ (by decide), ?_⟩
  exact c4_type_carry.2.2.2 [241, 0, 0, 0] (by decide)
    (c4_type_carry.2.2.1 [241, 0, 0, 0] (by decide) (by decide) (by decide))

/-! Claim C9: fail-stop iterators. -/

/-- Claim C9: for both the segment-header iterator (`PayloadIterator`) and
the section iterator (`SegmentIterator`), a step that records an error
yields nothing and leaves a state from which `is_valid` is false and every
further step yields nothing without changing the state (the failed state is
a fixpoint, so the sequence has permanently ended); the failure is never an
item of the sequence, only the recorded last error. -/
theorem c9_iterators_fail_stop :
    (∀ (s s' : SegmentIterator) (e : Errors),
        SegmentIterator.next s = (none, s') → s'.last_error = some e →
        s'.is_valid = false ∧ SegmentIterator.next s' = (none, s'))
    ∧ (∀ (db : List Nat → List Nat) (gz : List Nat → Option (List Nat))
        (s s' : PayloadIterator) (e : Errors),
        PayloadIterator.next db gz s = some (none, s') → s'.last_error = some e →
        s'.is_valid = false ∧ PayloadIterator.next db gz s' = some (none, s')) := by
  constructor
  · intro s s' e h he
    refine ⟨by simp [SegmentIterator.is_valid, he], ?_⟩
    unfold SegmentIterator.next at h ⊢
    split at h
    · next hc =>
      simp only [Prod.mk.injEq] at h
      obtain ⟨-, rfl⟩ := h
      rw [if_pos hc]
    · next hc =>
      split at h
      · exact absurd h (by simp)
      · next e2 heq =>
        simp only [Prod.mk.injEq] at h
        obtain ⟨-, rfl⟩ := h
        simp only [heq]
        rw [if_neg hc]
  · intro db gz s s' e h he
    refine ⟨by simp [PayloadIterator.is_valid, he], ?_⟩
    unfold PayloadIterator.next at h ⊢
    split at h
    · next hc =>
      simp only [Option.some.injEq, Prod.mk.injEq] at h
      obtain ⟨-, rfl⟩ := h
      rw [if_pos hc]
    · next hc =>
      split at h
      · next e2 heq =>
        simp only [Option.some.injEq, Prod.mk.injEq] at h
        obtain ⟨-, rfl⟩ := h
        simp only [heq]
        rw [if_neg hc]
      · next f heq =>
        split at h
        · next hpd =>
          split at h
          · next hb =>
            simp only [Option.some.injEq, Prod.mk.injEq] at h
            obtain ⟨-, rfl⟩ := h
            simp only [heq]
            rw [if_neg hc, if_pos hpd, if_pos hb]
          · next hb =>
            split at h
            · exact absurd h (by simp)
            · next e3 heq3 =>
              simp only [Option.some.injEq, Prod.mk.injEq] at h
              obtain ⟨-, rfl⟩ := h
              simp only [heq, heq3]
              rw [if_neg hc, if_pos hpd, if_neg hb]
            · exact absurd h (by simp)
        · exact absurd h (by simp)

/-- Claim C9 witness: a section iterator that failed with `BufferTooSmall`
on the 1-byte stream `[64]` and a segment-header iterator that failed on a
3-byte header table are both permanently ended fixpoints. -/
theorem c9_iterators_fail_stop_witness :
    (⟨[64], 0, some Errors.BufferTooSmall, none⟩ : SegmentIterator).is_valid = false
    ∧ SegmentIterator.next ⟨[64], 0, some Errors.BufferTooSmall, none⟩
        = (none, ⟨[64], 0, some Errors.BufferTooSmall, none⟩)
    ∧ (⟨[0, 0, 0], 0, 1, some Errors.BufferTooSmall, false⟩ : PayloadIterator).is_valid
        = false
    ∧ PayloadIterator.next (fun l => l) (fun _ => none)
        ⟨[0, 0, 0], 0, 1, some Errors.BufferTooSmall, false⟩
        = some (none, ⟨[0, 0, 0], 0, 1, some Errors.BufferTooSmall, false⟩) := by
  have h1 := c9_iterators_fail_stop.1 (SegmentIterator.new [64])
    ⟨[64], 0, some Errors.BufferTooSmall, none⟩ Errors.BufferTooSmall
    (by decide) (by decide)
  have h2 := c9_iterators_fail_stop.2 (fun l => l) (fun _ => none)
    ⟨[0, 0, 0], 0, 1, none, false⟩ ⟨[0, 0, 0], 0, 1, some Errors.BufferTooSmall, false⟩
    Errors.BufferTooSmall (by decide) (by decide)
  exact ⟨h1.1, h1.2, h2.1, h2.2⟩

/-! Claim C2: idempotence of segment materialization.
`Rofl::load_segments` is guarded by `is_loaded`, but `Rofl::load_segment`
(behind `load_chunk`/`load_keyframe`) is not — its own FIXME comment says
"This code should ensure that the segment is not already loaded" and its doc
comment promises loading only "if it is not already loaded" — and
`read_to_end` appends to the existing data vector, so re-materializing an
already-loaded segment duplicates its contents. -/

/-- Claim C2 failing run: a Rofl state whose only chunk is already
materialized with bytes `[9]`; calling `load_chunk 1` again re-runs the
pipeline (gzip inflating to `[9]`) and appends, leaving `[9, 9]` — not a
no-op, and not byte-identical to the buffer after the first call. -/
theorem c2_load_chunk_not_idempotent :
    Rofl.load_chunk (fun l => l) (fun _ => some [9]) exampleRofl 1
      (List.replicate 25 0)
      = .ok (exampleRoflAfter, ⟨1, 1, 8, 0, 0, [9, 9]⟩)
    ∧ exampleRoflAfter.chunks.map Segment.data = [[9, 9]]
    ∧ exampleRofl.chunks.map Segment.data = [[9]]
    ∧ ([9, 9] : List Nat) ≠ [9] := by
  decide

/-! Claim C10: zero-byte materializations are indistinguishable from
unmaterialized segments. -/

/-- Claim C10: `is_loaded` holds exactly when the segment's data buffer is
non-empty; `section_iter` fails with `NoData` exactly when that buffer is
empty (no flag records that a materialization already succeeded with zero
bytes); and the `load_segments` per-segment step re-attempts materialization
for a segment with an empty buffer while leaving a non-empty one
untouched. -/
theorem c10_empty_materialization :
    (∀ s : Segment, s.is_loaded = true ↔ s.data ≠ [])
    ∧ (∀ s : Segment, s.section_iter = .error Errors.NoData ↔ s.data = [])
    ∧ (∀ (db : List Nat → List Nat) (gz : List Nat → Option (List Nat))
        (fileData : List Nat) (pds : Nat) (s : Segment) (enc d : List Nat),
        s.data = [] →
        sliceRange fileData (pds + s.offset) (pds + s.offset + s.len) = some enc →
        rofl_decrypt_decompress db gz enc [] = .ok d →
        Rofl.load_segments_step db gz fileData pds s = .ok { s with data := d })
    ∧ (∀ (db : List Nat → List Nat) (gz : List Nat → Option (List Nat))
        (fileData : List Nat) (pds : Nat) (s : Segment),
        s.data ≠ [] → Rofl.load_segments_step db gz fileData pds s = .ok s) := by
  refine ⟨?_, ?_, ?_, ?_⟩
  · intro s
    simp [Segment.is_loaded]
  · intro s
    unfold Segment.section_iter
    split_ifs with hc
    · simp only [List.length_eq_zero] at hc
      simp [hc]
    · simp only [List.length_eq_zero] at hc
      simp [hc]
  · intro db gz fileData pds s enc d hdata hslice hrofl
    have hnl : s.is_loaded = false := by simp [Segment.is_loaded, hdata]
    unfold Rofl.load_segments_step
    rw [if_neg (by simp [hnl])]
    simp only [hslice, hdata, hrofl]
  · intro db gz fileData pds s hdata
    have hl : s.is_loaded = true := by simp [Segment.is_loaded, hdata]
    unfold Rofl.load_segments_step
    rw [if_pos hl]

/-- Claim C10 witness: a segment with empty data is re-materialized by the
`load_segments` step (receiving the inflated bytes `[5, 6]`), while the same
segment with data `[9]` is left untouched. -/
theorem c10_empty_materialization_witness :
    Rofl.load_segments_step (fun l => l) (fun _ => some [5, 6])
      (List.replicate 25 0) 17 ⟨1, 1, 8, 0, 0, []⟩ = .ok ⟨1, 1, 8, 0, 0, [5, 6]⟩
    ∧ Rofl.load_segments_step (fun l => l) (fun _ => some [5, 6])
      (List.replicate 25 0) 17 ⟨1, 1, 8, 0, 0, [9]⟩ = .ok ⟨1, 1, 8, 0, 0, [9]⟩ := by
  refine ⟨?_, c10_empty_materialization.2.2.2 (fun l => l) (fun _ => some [5, 6])
    (List.replicate 25 0) 17 ⟨1, 1, 8, 0, 0, [9]⟩ (by decide)⟩
  exact c10_empty_materialization.2.2.1 (fun l => l) (fun _ => some [5, 6])
    (List.replicate 25 0) 17 ⟨1, 1, 8, 0, 0, []⟩ (List.replicate 8 0) [5, 6]
    rfl (by decide) (by decide)

end LolRofl
